import Mathlib

/-!
# Verification of `SessionStore` (src/session_store.rs)

A shallow embedding of the session store of this repository.  Timestamps
(`time::OffsetDateTime`) and durations (`time::Duration`) are modelled as
`Int` seconds since the Unix epoch; the concurrent map `DashMap<String,
SessionData>` is modelled as an association list with unique keys, updated
functionally; fallible operations return `Except SessionError`.
The per-session record type `SessionData`, the configuration type
`SessionConfig` and the `DatabasePool` backend trait are declared in this
crate but outside `src/session_store.rs`; they are modelled from the spec
where so marked.
-/

namespace AxumSessions

/-- Error kinds of the crate (`SessionError`): `sqlx` is the backend I/O
failure the spec calls `BackendError`; `serdeJson` is the payload
(de)serialization failure the spec calls `EncodeError`/`DecodeError`. -/
inductive SessionError where
  | sqlx
  | serdeJson
  deriving Repr, DecidableEq

/-- Modelled from the spec: the per-session record `SessionData` (its struct
is not under `src/`).  Fields follow spec section 3: key/value payload,
expiry timestamps and lifecycle flags; `renewMark` models the rotation mark
set by `renew()`.  Values stored in `data` are modelled as the strings they
serialize to. -/
structure SessionData where
  id : String
  data : List (String × String)
  expires : Int
  autoremove : Int
  destroy : Bool
  longterm : Bool
  storable : Bool
  renewMark : Bool
  deriving Repr, DecidableEq

/-- First-match lookup in an association list (`DashMap::get`). -/
def lookupKey {α : Type} (l : List (String × α)) (k : String) : Option α :=
  match l with
  | [] => none
  | p :: rest => if p.1 = k then some p.2 else lookupKey rest k

/-- Remove the entries for a key (`HashMap::remove`). -/
def eraseKey {α : Type} (l : List (String × α)) (k : String) : List (String × α) :=
  l.filter (fun p => !(p.1 = k : Bool))

/-- Insert-or-replace for a key (`HashMap::insert` / `DashMap` in-place update). -/
def insertKey {α : Type} (l : List (String × α)) (k : String) (v : α) :
    List (String × α) :=
  (k, v) :: eraseKey l k

/-- Modelled from the spec: `SessionData::validate` — "true iff expires > now"
(spec section 4.2).  The source method reads the clock itself; `now` is passed
explicitly here. -/
def SessionData.validate (s : SessionData) (now : Int) : Bool :=
  decide (s.expires > now)

/-- Modelled from the spec: `SessionData::get` — per-key read that leaves the
entry in place. -/
def SessionData.get (s : SessionData) (key : String) : Option String :=
  lookupKey s.data key

/-- Modelled from the spec: `SessionData::get_remove` — "atomically reads and
deletes the key". -/
def SessionData.get_remove (s : SessionData) (key : String) :
    Option String × SessionData :=
  (lookupKey s.data key, { s with data := eraseKey s.data key })

/-- Modelled from the spec: `SessionData::set` — per-key write. -/
def SessionData.set (s : SessionData) (key value : String) : SessionData :=
  { s with data := insertKey s.data key value }

/-- Modelled from the spec: `SessionData::remove` — per-key delete. -/
def SessionData.remove (s : SessionData) (key : String) : SessionData :=
  { s with data := eraseKey s.data key }

/-- Modelled from the spec: `SessionData::clear` — drops all keys. -/
def SessionData.clear (s : SessionData) : SessionData :=
  { s with data := [] }

/-- Modelled from the spec: `SessionData::destroy` — "sets destroy = true;
the actual clearing happens lazily on next service".  Named `mark_destroy`
because `destroy` is already the field's name. -/
def SessionData.mark_destroy (s : SessionData) : SessionData :=
  { s with destroy := true }

/-- Modelled from the spec: `SessionData::renew` — marks the record for
identifier rotation without discarding `data`. -/
def SessionData.renew (s : SessionData) : SessionData :=
  { s with renewMark := true }

/-- Modelled from the spec: `SessionData::set_longterm` — flag toggle. -/
def SessionData.set_longterm (s : SessionData) (longterm : Bool) : SessionData :=
  { s with longterm := longterm }

/-- Modelled from the spec: `SessionData::set_store` — flag toggle. -/
def SessionData.set_store (s : SessionData) (storable : Bool) : SessionData :=
  { s with storable := storable }

/-- Modelled from the spec: `SessionConfig` (not under `src/`): table name,
in-memory lifespan, and the two sweep intervals (spec section 6). -/
structure SessionConfig where
  table_name : String
  memory_lifespan : Int
  memory_sweep_interval : Int
  database_sweep_interval : Int
  deriving Repr, DecidableEq

/-- `SessionTimers` as used by `SessionStore::new`: the two sweep
timestamps. -/
structure SessionTimers where
  last_expiry_sweep : Int
  last_database_expiry_sweep : Int
  deriving Repr, DecidableEq

/- ## Serialized payload

`store_session` serializes the record with `serde_json::to_string` and
`load_session` parses it back with `serde_json::from_str`.  The text payload
is modelled as its byte sequence (`List Nat`) and the derived serde codec as
a concrete length-prefixed encoder/decoder, so that round-trip fidelity is a
real theorem about an executable codec rather than an assumption. -/

/-- Encode a string: length, then the code points. -/
def encStr (s : String) : List Nat :=
  s.length :: s.toList.map Char.toNat

/-- Decode `n` code points. -/
def decChars (n : Nat) (l : List Nat) : Option (List Char × List Nat) :=
  match n, l with
  | 0, l => some ([], l)
  | n + 1, c :: l => (decChars n l).map (fun p => (Char.ofNat c :: p.1, p.2))
  | _ + 1, [] => none

/-- Decode a string encoded by `encStr`; returns the remainder. -/
def decStr (l : List Nat) : Option (String × List Nat) :=
  match l with
  | [] => none
  | n :: rest => (decChars n rest).map (fun p => (String.mk p.1, p.2))

/-- Encode an integer as a sign byte and a magnitude. -/
def encInt (i : Int) : List Nat :=
  if 0 ≤ i then [0, i.toNat] else [1, (-i).toNat]

/-- Decode an integer encoded by `encInt`. -/
def decInt (l : List Nat) : Option (Int × List Nat) :=
  match l with
  | 0 :: n :: rest => some ((n : Int), rest)
  | 1 :: n :: rest => some (-(n : Int), rest)
  | _ => none

/-- Encode a boolean. -/
def encBool (b : Bool) : List Nat :=
  [if b then 1 else 0]

/-- Decode a boolean encoded by `encBool`. -/
def decBool (l : List Nat) : Option (Bool × List Nat) :=
  match l with
  | 0 :: rest => some (false, rest)
  | 1 :: rest => some (true, rest)
  | _ => none

/-- Encode one key/value pair of the `data` map. -/
def encPair (p : String × String) : List Nat :=
  encStr p.1 ++ encStr p.2

/-- Encode the `data` map: entry count, then the entries. -/
def encData (l : List (String × String)) : List Nat :=
  l.length :: (l.map encPair).flatten

/-- Decode `n` key/value pairs. -/
def decPairs (n : Nat) (l : List Nat) :
    Option (List (String × String) × List Nat) :=
  match n with
  | 0 => some ([], l)
  | n + 1 => do
    let (k, r1) ← decStr l
    let (v, r2) ← decStr r1
    let (tl, r3) ← decPairs n r2
    some ((k, v) :: tl, r3)

/-- Decode the `data` map encoded by `encData`. -/
def decData (l : List Nat) : Option (List (String × String) × List Nat) :=
  match l with
  | [] => none
  | n :: rest => decPairs n rest

/-- Modelled from the spec: `serde_json::to_string` on a `SessionData`
("serializable to and from a byte/text representation"), as a concrete
field-by-field encoder. -/
def sessionToPayload (s : SessionData) : List Nat :=
  encStr s.id ++ encData s.data ++ encInt s.expires ++ encInt s.autoremove ++
    encBool s.destroy ++ encBool s.longterm ++ encBool s.storable ++
    encBool s.renewMark

/-- Field-by-field decoder, with remainder. -/
def sessionFromPayloadAux (l : List Nat) : Option (SessionData × List Nat) := do
  let (id, r1) ← decStr l
  let (data, r2) ← decData r1
  let (expires, r3) ← decInt r2
  let (autoremove, r4) ← decInt r3
  let (destroy, r5) ← decBool r4
  let (longterm, r6) ← decBool r5
  let (storable, r7) ← decBool r6
  let (renewMark, r8) ← decBool r7
  some ({ id := id, data := data, expires := expires, autoremove := autoremove,
          destroy := destroy, longterm := longterm, storable := storable,
          renewMark := renewMark }, r8)

/-- Modelled from the spec: `serde_json::from_str` into a `SessionData`;
fails (decode error) on any payload that is not a full valid encoding. -/
def sessionFromPayload (l : List Nat) : Option SessionData :=
  match sessionFromPayloadAux l with
  | some (s, []) => some s
  | _ => none

/-- Modelled from the spec: a durable backend satisfying the
`PersistenceContract` (`DatabasePool` implementations are not under
`src/`): a table of rows `(id, payload, expires)`, a log of the ids passed
to `store`, and a flag modelling connection/permission failure, on which
every contract call fails with the backend error kind. -/
structure Backend where
  rows : List (String × (List Nat × Int))
  storeLog : List String
  fail : Bool
  deriving Repr, DecidableEq

/-- Modelled from the spec: `DatabasePool::load(id, table_name) ->
Option<text>`; the single table named by configuration is the `rows`
field. -/
def Backend.load (b : Backend) (id : String) (_table : String) :
    Except SessionError (Option (List Nat)) :=
  if b.fail then .error .sqlx
  else .ok ((lookupKey b.rows id).map Prod.fst)

/-- Modelled from the spec: `DatabasePool::store(id, text, expires,
table_name)` — point write keyed by identifier. -/
def Backend.store (b : Backend) (id : String) (payload : List Nat)
    (expires : Int) (_table : String) : Except SessionError Backend :=
  if b.fail then .error .sqlx
  else .ok { b with rows := insertKey b.rows id (payload, expires),
                    storeLog := id :: b.storeLog }

/-- Modelled from the spec: `DatabasePool::count(table_name)`. -/
def Backend.count (b : Backend) : Except SessionError Int :=
  if b.fail then .error .sqlx
  else .ok (b.rows.length : Int)

/-- `SessionStore` (src/session_store.rs lines 26-39): optional backend
client, the in-memory map, configuration and the sweep timers. -/
structure SessionStore where
  client : Option Backend
  inner : List (String × SessionData)
  config : SessionConfig
  timers : SessionTimers
  deriving Repr, DecidableEq

/-- `SessionStore::new` (lines 72-84): empty cache; the first in-memory
expiry sweep is scheduled one hour from start-up and the first backend
expiry sweep six hours from start-up, as literal constants.  `now` is the
construction-time clock reading. -/
def SessionStore.new (client : Option Backend) (config : SessionConfig)
    (now : Int) : SessionStore :=
  { client := client
    inner := []
    config := config
    timers := { last_expiry_sweep := now + 3600
                last_database_expiry_sweep := now + 6 * 3600 } }

/-- `SessionStore::is_persistent` (lines 100-102). -/
def SessionStore.is_persistent (st : SessionStore) : Bool :=
  st.client.isSome

/-- `SessionStore::count` (lines 177-184): backend count when a client is
configured, `Ok(0)` otherwise. -/
def SessionStore.count (st : SessionStore) : Except SessionError Int :=
  match st.client with
  | some client =>
    match client.count with
    | .ok c => .ok c
    | .error e => .error e
  | none => .ok 0

/-- `SessionStore::load_session` (lines 207-221): `Ok(None)` without a
client; otherwise backend point load, then payload decode, each failure
propagated with its own error kind. -/
def SessionStore.load_session (st : SessionStore) (cookie_value : String) :
    Except SessionError (Option SessionData) :=
  match st.client with
  | some client =>
    match client.load cookie_value st.config.table_name with
    | .error e => .error e
    | .ok result =>
      match result with
      | some payload =>
        match sessionFromPayload payload with
        | some s => .ok (some s)
        | none => .error .serdeJson
      | none => .ok none
  | none => .ok none

/-- `SessionStore::store_session` (lines 246-259): serializes the record and
writes `(id, payload, expires.unix_timestamp())` through the client; no-op
without a client.  Returns the store with the updated backend. -/
def SessionStore.store_session (st : SessionStore) (session : SessionData) :
    Except SessionError SessionStore :=
  match st.client with
  | some client =>
    match client.store session.id (sessionToPayload session) session.expires
        st.config.table_name with
    | .error e => .error e
    | .ok client2 => .ok { st with client := some client2 }
  | none => .ok st

/-- `SessionStore::clear` (lines 336-338): drops the whole in-memory map. -/
def SessionStore.clear (st : SessionStore) : SessionStore :=
  { st with inner := [] }

/-- `SessionStore::service_session_data` (lines 343-356): on a resident
record, clear-and-reset when invalid or destroy-flagged, then refresh
`autoremove`; returns whether the record was resident. -/
def SessionStore.service_session_data (st : SessionStore) (now : Int)
    (id : String) : Bool × SessionStore :=
  match lookupKey st.inner id with
  | some inner0 =>
    let inner1 :=
      if !(inner0.validate now) || inner0.destroy then
        { inner0 with destroy := false, longterm := false, data := [] }
      else inner0
    let inner2 := { inner1 with autoremove := now + st.config.memory_lifespan }
    (true, { st with inner := insertKey st.inner id inner2 })
  | none => (false, st)

/-- `SessionStore::renew` (lines 359-365): delegate when resident, warn-only
no-op otherwise. -/
def SessionStore.renew (st : SessionStore) (id : String) : SessionStore :=
  match lookupKey st.inner id with
  | some instance0 => { st with inner := insertKey st.inner id instance0.renew }
  | none => st

/-- `SessionStore::destroy` (lines 368-374): delegate when resident,
warn-only no-op otherwise. -/
def SessionStore.destroy (st : SessionStore) (id : String) : SessionStore :=
  match lookupKey st.inner id with
  | some instance0 =>
    { st with inner := insertKey st.inner id instance0.mark_destroy }
  | none => st

/-- `SessionStore::set_longterm` (lines 377-383). -/
def SessionStore.set_longterm (st : SessionStore) (id : String)
    (longterm : Bool) : SessionStore :=
  match lookupKey st.inner id with
  | some instance0 =>
    { st with inner := insertKey st.inner id (instance0.set_longterm longterm) }
  | none => st

/-- `SessionStore::set_store` (lines 386-392). -/
def SessionStore.set_store (st : SessionStore) (id : String)
    (storable : Bool) : SessionStore :=
  match lookupKey st.inner id with
  | some instance0 =>
    { st with inner := insertKey st.inner id (instance0.set_store storable) }
  | none => st

/-- `SessionStore::get` (lines 395-402): read-only; `None` with a warning
when the identifier is not resident. -/
def SessionStore.get (st : SessionStore) (id : String) (key : String) :
    Option String :=
  match lookupKey st.inner id with
  | some instance0 => instance0.get key
  | none => none

/-- `SessionStore::get_remove` (lines 405-416): the read and the delete
happen in one step, under the map's exclusive per-entry guard. -/
def SessionStore.get_remove (st : SessionStore) (id : String) (key : String) :
    Option String × SessionStore :=
  match lookupKey st.inner id with
  | some instance0 =>
    let (v, instance1) := instance0.get_remove key
    (v, { st with inner := insertKey st.inner id instance1 })
  | none => (none, st)

/-- `SessionStore::set` (lines 419-425). -/
def SessionStore.set (st : SessionStore) (id : String) (key value : String) :
    SessionStore :=
  match lookupKey st.inner id with
  | some instance0 =>
    { st with inner := insertKey st.inner id (instance0.set key value) }
  | none => st

/-- `SessionStore::remove` (lines 428-434). -/
def SessionStore.remove (st : SessionStore) (id : String) (key : String) :
    SessionStore :=
  match lookupKey st.inner id with
  | some instance0 =>
    { st with inner := insertKey st.inner id (instance0.remove key) }
  | none => st

/-- `SessionStore::clear_session_data` (lines 437-443). -/
def SessionStore.clear_session_data (st : SessionStore) (id : String) :
    SessionStore :=
  match lookupKey st.inner id with
  | some instance0 =>
    { st with inner := insertKey st.inner id instance0.clear }
  | none => st

/-- `SessionStore::count_sessions` (lines 446-452): infallible; backend
count with `unwrap_or(0)` when persistent, else the resident count. -/
def SessionStore.count_sessions (st : SessionStore) : Int :=
  if st.is_persistent then
    match st.count with
    | .ok c => c
    | .error _ => 0
  else
    (st.inner.length : Int)

/-- Modelled from the spec: the persist path the hosting layer runs at
response time (that layer is not under `src/`): "when false, the record is
never written to persistence even if a backend is configured", otherwise it
delegates to `store_session`. -/
def persistPath (st : SessionStore) (session : SessionData) :
    Except SessionError SessionStore :=
  if session.storable then st.store_session session else .ok st

/-- Modelled from the spec: the in-memory eviction sweep (spec sections 4.1
and 4.4; the sweep loop is not under `src/`): removes every resident record
whose `autoremove` has passed `now`. -/
def sweep_memory (st : SessionStore) (now : Int) : SessionStore :=
  { st with inner := st.inner.filter (fun p => decide (now < p.2.autoremove)) }

/-- Modelled from the spec: the lazy in-memory sweep trigger (spec section
4.4; the check is not under `src/`): the sweep is due once the clock reaches
the recorded next-sweep timestamp. -/
def memory_sweep_due (st : SessionStore) (now : Int) : Bool :=
  decide (st.timers.last_expiry_sweep ≤ now)

/-- Modelled from the spec: the lazy backend sweep trigger (spec section
4.4). -/
def database_sweep_due (st : SessionStore) (now : Int) : Bool :=
  decide (st.timers.last_database_expiry_sweep ≤ now)

/- ## Interleaving model

Each `SessionStore` method body acquires the map's per-entry exclusive guard
(`DashMap::get_mut`) once and holds it for the whole body, so concurrent
callers interleave at whole-operation granularity: one mutating method call
is one atomic step of the trace. -/

/-- One caller-visible mutating operation, as interleaved by the
scheduler. -/
inductive Action where
  | set (id key value : String)
  | remove (id key : String)
  | get_remove (id key : String)
  | clear_session_data (id : String)
  | mark_destroy (id : String)
  | renew (id : String)
  | set_longterm (id : String) (b : Bool)
  | set_store (id : String) (b : Bool)
  | service (now : Int) (id : String)
  deriving Repr, DecidableEq

/-- The state transition of one atomic step. -/
def stepAction (st : SessionStore) (a : Action) : SessionStore :=
  match a with
  | .set id key value => st.set id key value
  | .remove id key => st.remove id key
  | .get_remove id key => (st.get_remove id key).2
  | .clear_session_data id => st.clear_session_data id
  | .mark_destroy id => st.destroy id
  | .renew id => st.renew id
  | .set_longterm id b => st.set_longterm id b
  | .set_store id b => st.set_store id b
  | .service now id => (st.service_session_data now id).2

/-- Run an interleaved sequence of atomic steps. -/
def runActions (st : SessionStore) (l : List Action) : SessionStore :=
  l.foldl stepAction st

/- ## Concrete fixtures used by witnesses and counterexamples -/

/-- A concrete configuration. -/
def cfg0 : SessionConfig :=
  { table_name := "sessions", memory_lifespan := 60,
    memory_sweep_interval := 3600, database_sweep_interval := 21600 }

/-- Concrete timers. -/
def timers0 : SessionTimers :=
  { last_expiry_sweep := 3600, last_database_expiry_sweep := 21600 }

/-- A concrete resident record. -/
def recA : SessionData :=
  { id := "A", data := [("k", "1")], expires := 100, autoremove := 50,
    destroy := false, longterm := false, storable := true, renewMark := false }

/-- A store with no backend and one resident record. -/
def st0 : SessionStore :=
  { client := none, inner := [("A", recA)], config := cfg0, timers := timers0 }

/-- A concrete empty, reachable backend. -/
def backend0 : Backend :=
  { rows := [], storeLog := [], fail := false }

/-- The same store with a configured backend. -/
def st1 : SessionStore :=
  { st0 with client := some backend0 }

/-- A backend holding an undecodable payload for identifier `A`. -/
def backendBad : Backend :=
  { rows := [("A", ([99], 0))], storeLog := [], fail := false }

/-- A store whose backend has a corrupt row. -/
def stBad : SessionStore :=
  { client := some backendBad, inner := [], config := cfg0, timers := timers0 }

/-- A record whose `autoremove` already lies beyond `now + memory_lifespan`. -/
def recC7 : SessionData :=
  { id := "A", data := [], expires := 1000, autoremove := 1000,
    destroy := false, longterm := false, storable := true, renewMark := false }

/-- A store holding `recC7`. -/
def stC7 : SessionStore :=
  { client := none, inner := [("A", recC7)], config := cfg0, timers := timers0 }

/- ## Codec round-trip lemmas -/

theorem decChars_encChars (cs : List Char) (r : List Nat) :
    decChars cs.length (cs.map Char.toNat ++ r) = some (cs, r) := by
  induction cs generalizing r with
  | nil => rfl
  | cons c cs ih => simp [decChars, ih]

theorem decStr_encStr (s : String) (r : List Nat) :
    decStr (encStr s ++ r) = some (s, r) := by
  show decStr (s.length :: (s.toList.map Char.toNat ++ r)) = some (s, r)
  have hlen : s.length = s.toList.length := rfl
  rw [decStr, hlen, decChars_encChars]
  rfl

theorem decInt_encInt (i : Int) (r : List Nat) :
    decInt (encInt i ++ r) = some (i, r) := by
  by_cases h : 0 ≤ i
  · simp [encInt, h, decInt, Int.toNat_of_nonneg h]
  · have h2 : 0 ≤ -i := by omega
    simp only [encInt, if_neg h, List.cons_append, decInt]
    rw [Int.toNat_of_nonneg h2]
    simp

theorem decBool_encBool (b : Bool) (r : List Nat) :
    decBool (encBool b ++ r) = some (b, r) := by
  cases b <;> rfl

theorem decPairs_encData (l : List (String × String)) (r : List Nat) :
    decPairs l.length ((l.map encPair).flatten ++ r) = some (l, r) := by
  induction l generalizing r with
  | nil => rfl
  | cons p tl ih =>
    simp [decPairs, encPair, List.append_assoc, decStr_encStr, ih]

theorem decData_encData (l : List (String × String)) (r : List Nat) :
    decData (encData l ++ r) = some (l, r) := by
  show decData (l.length :: ((l.map encPair).flatten ++ r)) = some (l, r)
  rw [decData, decPairs_encData]

theorem fromPayloadAux_toPayload (s : SessionData) (r : List Nat) :
    sessionFromPayloadAux (sessionToPayload s ++ r) = some (s, r) := by
  simp [sessionToPayload, sessionFromPayloadAux, List.append_assoc,
        decStr_encStr, decData_encData, decInt_encInt, decBool_encBool]

theorem fromPayload_toPayload (s : SessionData) :
    sessionFromPayload (sessionToPayload s) = some s := by
  have h := fromPayloadAux_toPayload s []
  rw [List.append_nil] at h
  rw [sessionFromPayload, h]

/- ## Map helper lemmas -/

theorem lookupKey_insertKey {α : Type} (l : List (String × α)) (k : String)
    (v : α) : lookupKey (insertKey l k v) k = some v := by
  simp [insertKey, lookupKey]

/- ## Claims -/

/-- C1: counterexample — with no backend configured and one resident
in-memory record, `count()` returns `Ok(0)`, not the resident count `1`
(the resident count is what `count_sessions()` reports). -/
theorem claim_C1_counterexample :
    st0.client = none ∧ st0.inner.length = 1 ∧
      ¬ SessionStore.count st0 = Except.ok (st0.inner.length : Int) := by
  refine ⟨rfl, rfl, fun h => ?_⟩
  exact absurd (Except.ok.inj h) (by decide)

/-- C1 (amended): with no backend configured, `count()` returns `Ok(0)`
unconditionally, ignoring the resident in-memory records; it fails — and
then only with the backend error kind — only when a backend is
configured. -/
theorem claim_C1 (st : SessionStore) :
    (st.client = none → st.count = Except.ok 0) ∧
    (∀ e : SessionError, st.count = Except.error e →
      st.client ≠ none ∧ e = SessionError.sqlx) := by
  constructor
  · intro h
    simp [SessionStore.count, h]
  · intro e he
    cases hc : st.client with
    | none => simp [SessionStore.count, hc] at he
    | some b =>
      refine ⟨by simp [hc], ?_⟩
      simp only [SessionStore.count, hc, Backend.count] at he
      by_cases hf : b.fail
      · simp only [hf, if_true] at he
        exact (Except.error.inj he).symm
      · simp [hf] at he

/-- C1 witness: the amended theorem evaluated on the concrete store. -/
theorem claim_C1_witness : SessionStore.count st0 = Except.ok 0 :=
  (claim_C1 st0).1 rfl

/-- C2: on a resident record, `service_session_data` resets the flags and
clears `data` when the record is invalid or destroy-flagged, always sets
`autoremove` to `now + memory_lifespan`, and returns `true`; on a missing
identifier it returns `false` and leaves the store unchanged; and
`destroy()` followed by service leaves `data` empty with `destroy` and
`longterm` false. -/
theorem claim_C2 (st : SessionStore) (now : Int) (id : String) :
    (∀ rec, lookupKey st.inner id = some rec →
      (st.service_session_data now id).1 = true ∧
      ∃ rec2, lookupKey (st.service_session_data now id).2.inner id = some rec2 ∧
        rec2.autoremove = now + st.config.memory_lifespan ∧
        ((rec.validate now = false ∨ rec.destroy = true) →
          rec2.destroy = false ∧ rec2.longterm = false ∧ rec2.data = [])) ∧
    (lookupKey st.inner id = none → st.service_session_data now id = (false, st)) ∧
    (∀ rec, lookupKey st.inner id = some rec →
      ∃ rec2,
        lookupKey ((st.destroy id).service_session_data now id).2.inner id =
          some rec2 ∧
        rec2.data = [] ∧ rec2.destroy = false ∧ rec2.longterm = false) := by
  refine ⟨?_, ?_, ?_⟩
  · intro rec h
    simp only [SessionStore.service_session_data, h]
    refine ⟨trivial, _, lookupKey_insertKey _ _ _, rfl, ?_⟩
    intro hcase
    have hcond : (!(rec.validate now) || rec.destroy) = true := by
      cases hcase with
      | inl h1 => simp [h1]
      | inr h1 => simp [h1]
    simp [hcond]
  · intro h
    simp [SessionStore.service_session_data, h]
  · intro rec h
    have hd : lookupKey (st.destroy id).inner id = some rec.mark_destroy := by
      simp only [SessionStore.destroy, h]
      exact lookupKey_insertKey _ _ _
    simp only [SessionStore.service_session_data, hd]
    refine ⟨_, lookupKey_insertKey _ _ _, ?_⟩
    simp [SessionData.mark_destroy]

/-- C2 witness: the theorem evaluated on the concrete store, including the
destroy-then-service scenario. -/
theorem claim_C2_witness :
    (st0.service_session_data 5 "A").1 = true ∧
    (∃ rec2,
      lookupKey ((st0.destroy "A").service_session_data 5 "A").2.inner "A" =
        some rec2 ∧
      rec2.data = [] ∧ rec2.destroy = false ∧ rec2.longterm = false) :=
  ⟨((claim_C2 st0 5 "A").1 recA rfl).1, (claim_C2 st0 5 "A").2.2 recA rfl⟩

/-- C3: after `set_store(id, false)` the resident record's `storable` flag
is false, and the persist path on any non-storable record returns the store
unchanged — in particular the backend (and its log of stored ids) is
untouched, whatever backend is configured. -/
theorem claim_C3 (st : SessionStore) (id : String) :
    (∀ rec, lookupKey (st.set_store id false).inner id = some rec →
      rec.storable = false) ∧
    (∀ stAny : SessionStore, ∀ rec : SessionData, rec.storable = false →
      persistPath stAny rec = Except.ok stAny) := by
  constructor
  · intro rec h
    cases hl : lookupKey st.inner id with
    | none =>
      simp only [SessionStore.set_store, hl] at h
      cases h
    | some rec0 =>
      simp only [SessionStore.set_store, hl, lookupKey_insertKey] at h
      cases h
      rfl
  · intro stAny rec h
    simp [persistPath, h]

/-- C3 witness: the scenario — `set("A","k","1")` then `set_store("A",
false)` — yields a record the persist path refuses to write. -/
theorem claim_C3_witness :
    ((recA.set "k" "1").set_store false).storable = false ∧
    persistPath st1 ((recA.set "k" "1").set_store false) = Except.ok st1 :=
  ⟨(claim_C3 (st0.set "A" "k" "1") "A").1 ((recA.set "k" "1").set_store false)
      rfl,
    (claim_C3 (st0.set "A" "k" "1") "A").2 st1 ((recA.set "k" "1").set_store
      false) rfl⟩

/-- C4: with a configured, reachable backend, `store_session(record)`
followed by `load_session(record.id)` yields `Some` record with `data` and
`expires` identical to the original, through the executable payload
codec. -/
theorem claim_C4 (st : SessionStore) (b : Backend) (session : SessionData)
    (hc : st.client = some b) (hf : b.fail = false) :
    ∃ st2 s2, st.store_session session = Except.ok st2 ∧
      st2.load_session session.id = Except.ok (some s2) ∧
      s2.data = session.data ∧ s2.expires = session.expires := by
  refine ⟨{ st with client := some { b with
      rows := insertKey b.rows session.id
        (sessionToPayload session, session.expires),
      storeLog := session.id :: b.storeLog } }, session, ?_, ?_, rfl, rfl⟩
  · simp [SessionStore.store_session, hc, Backend.store, hf]
  · simp [SessionStore.load_session, Backend.load, hf, lookupKey_insertKey,
          fromPayload_toPayload]

/-- C4 witness: the round trip evaluated on the concrete store and
record. -/
theorem claim_C4_witness :
    ∃ st2 s2, st1.store_session recA = Except.ok st2 ∧
      st2.load_session recA.id = Except.ok (some s2) ∧
      s2.data = recA.data ∧ s2.expires = recA.expires :=
  claim_C4 st1 backend0 recA rfl rfl

/-- C5: for an identifier not resident in the in-memory cache,
`service_session_data` returns `false`, `get` and `get_remove` return
`None`, and every other per-key or lifecycle operation leaves the store
unchanged; all of these are total functions whose result type carries no
error, so no error is returned or propagated. -/
theorem claim_C5 (st : SessionStore) (id key value : String) (b : Bool)
    (now : Int) (h : lookupKey st.inner id = none) :
    st.service_session_data now id = (false, st) ∧
    st.get id key = none ∧
    st.get_remove id key = (none, st) ∧
    st.set id key value = st ∧
    st.remove id key = st ∧
    st.clear_session_data id = st ∧
    st.renew id = st ∧
    st.destroy id = st ∧
    st.set_longterm id b = st ∧
    st.set_store id b = st := by
  refine ⟨?_, ?_, ?_, ?_, ?_, ?_, ?_, ?_, ?_, ?_⟩ <;>
    simp [SessionStore.service_session_data, SessionStore.get,
          SessionStore.get_remove, SessionStore.set, SessionStore.remove,
          SessionStore.clear_session_data, SessionStore.renew,
          SessionStore.destroy, SessionStore.set_longterm,
          SessionStore.set_store, h]

/-- C5 witness: the missing-identifier behavior evaluated at `"B"`, which is
not resident in the concrete store. -/
theorem claim_C5_witness :
    st0.service_session_data 0 "B" = (false, st0) ∧
    st0.get "B" "k" = none ∧
    st0.set "B" "k" "v" = st0 :=
  ⟨(claim_C5 st0 "B" "k" "v" true 0 (by decide)).1,
    (claim_C5 st0 "B" "k" "v" true 0 (by decide)).2.1,
    (claim_C5 st0 "B" "k" "v" true 0 (by decide)).2.2.2.1⟩

/-- C6: `load_session` returns `Ok(None)` with no backend; with a backend it
fails with the backend error kind exactly when the backend load fails, fails
with the decode error kind exactly when a stored payload exists but cannot
be deserialized, and otherwise returns the deserialized record, or `None`
when the backend has no row for the identifier. -/
theorem claim_C6 (st : SessionStore) (id : String) :
    (st.client = none → st.load_session id = Except.ok none) ∧
    (∀ b, st.client = some b →
      ((st.load_session id = Except.error SessionError.sqlx) ↔ b.fail = true) ∧
      ((st.load_session id = Except.error SessionError.serdeJson) ↔
        (b.fail = false ∧ ∃ p, (lookupKey b.rows id).map Prod.fst = some p ∧
          sessionFromPayload p = none)) ∧
      (∀ p s, b.fail = false → (lookupKey b.rows id).map Prod.fst = some p →
        sessionFromPayload p = some s →
        st.load_session id = Except.ok (some s)) ∧
      (b.fail = false → (lookupKey b.rows id).map Prod.fst = none →
        st.load_session id = Except.ok none)) := by
  constructor
  · intro h
    simp [SessionStore.load_session, h]
  · intro b hc
    cases hf : b.fail with
    | true =>
      refine ⟨?_, ?_, ?_, ?_⟩
      · simp [SessionStore.load_session, hc, Backend.load, hf]
      · simp [SessionStore.load_session, hc, Backend.load, hf]
      · intro p s hfalse _ _
        cases hfalse
      · intro hfalse _
        cases hfalse
    | false =>
      cases hrow : (lookupKey b.rows id).map Prod.fst with
      | none =>
        refine ⟨?_, ?_, ?_, ?_⟩
        · simp [SessionStore.load_session, hc, Backend.load, hf, hrow]
        · simp [SessionStore.load_session, hc, Backend.load, hf, hrow]
        · intro p s _ hp _
          cases hp
        · intro _ _
          simp [SessionStore.load_session, hc, Backend.load, hf, hrow]
      | some p =>
        cases hdec : sessionFromPayload p with
        | none =>
          refine ⟨?_, ?_, ?_, ?_⟩
          · simp [SessionStore.load_session, hc, Backend.load, hf, hrow, hdec]
          · simp [SessionStore.load_session, hc, Backend.load, hf, hrow, hdec]
          · intro q s _ hq hs
            cases hq
            rw [hdec] at hs
            cases hs
          · intro _ hq
            cases hq
        | some s =>
          refine ⟨?_, ?_, ?_, ?_⟩
          · simp [SessionStore.load_session, hc, Backend.load, hf, hrow, hdec]
          · simp [SessionStore.load_session, hc, Backend.load, hf, hrow, hdec]
          · intro q s2 _ hq hs2
            cases hq
            rw [hdec] at hs2
            cases hs2
            simp [SessionStore.load_session, hc, Backend.load, hf, hrow, hdec]
          · intro _ hq
            cases hq

/-- C6 witness: the decode-failure case evaluated on a backend holding a
corrupt payload for identifier `A`. -/
theorem claim_C6_witness :
    stBad.load_session "A" = Except.error SessionError.serdeJson :=
  (((claim_C6 stBad "A").2 backendBad rfl).2.1).mpr ⟨rfl, [99], rfl, rfl⟩

/-- C7: counterexample — a resident record whose prior `autoremove` (1000)
already exceeds `now + memory_lifespan` (0 + 60): the successful service
call sets `autoremove` to 60, which is a strict decrease, refuting "strictly
increases ... for any prior value". -/
theorem claim_C7_counterexample :
    recC7.autoremove = 1000 ∧
    (lookupKey (stC7.service_session_data 0 "A").2.inner "A").map
      SessionData.autoremove = some 60 ∧
    ¬ ((60 : Int) > 1000) :=
  ⟨rfl, rfl, by decide⟩

/-- C7 (amended): a successful service call sets the resident record's
`autoremove` to `now + memory_lifespan`; this strictly increases
`autoremove` whenever the prior value was below `now + memory_lifespan`
(in particular for any value assigned at an earlier `now` under the same
lifespan), but not for arbitrary prior values. -/
theorem claim_C7 (st : SessionStore) (now : Int) (id : String)
    (rec : SessionData) (h : lookupKey st.inner id = some rec) :
    ∀ rec2, lookupKey (st.service_session_data now id).2.inner id = some rec2 →
      rec2.autoremove = now + st.config.memory_lifespan ∧
      (rec.autoremove < now + st.config.memory_lifespan →
        rec.autoremove < rec2.autoremove) := by
  intro rec2 h2
  simp only [SessionStore.service_session_data, h, lookupKey_insertKey] at h2
  cases h2
  exact ⟨rfl, fun hlt => hlt⟩

/-- C7 witness: the amended theorem evaluated on the concrete store, where
the prior `autoremove` (50) is below `5 + 60`. -/
theorem claim_C7_witness :
    ({ recA with autoremove := 65 } : SessionData).autoremove =
      5 + st0.config.memory_lifespan ∧
    recA.autoremove < ({ recA with autoremove := 65 } : SessionData).autoremove :=
  ⟨(claim_C7 st0 5 "A" recA rfl { recA with autoremove := 65 } rfl).1,
    (claim_C7 st0 5 "A" recA rfl { recA with autoremove := 65 } rfl).2
      (by decide)⟩

/-- C8: `count_sessions` is a total function (it cannot fail); with a
configured backend it returns the backend count when that succeeds and 0
when the backend fails; with no backend it returns the resident in-memory
count, which stays accurate across an eviction sweep. -/
theorem claim_C8 (st : SessionStore) :
    (∀ b n, st.client = some b → b.count = Except.ok n →
      st.count_sessions = n) ∧
    (∀ b e, st.client = some b → b.count = Except.error e →
      st.count_sessions = 0) ∧
    (st.client = none →
      st.count_sessions = (st.inner.length : Int) ∧
      ∀ now, (sweep_memory st now).count_sessions =
        ((sweep_memory st now).inner.length : Int)) := by
  refine ⟨?_, ?_, ?_⟩
  · intro b n hc hn
    simp [SessionStore.count_sessions, SessionStore.is_persistent,
          SessionStore.count, hc, hn]
  · intro b e hc he
    simp [SessionStore.count_sessions, SessionStore.is_persistent,
          SessionStore.count, hc, he]
  · intro hc
    constructor
    · simp [SessionStore.count_sessions, SessionStore.is_persistent, hc]
    · intro now
      simp [SessionStore.count_sessions, SessionStore.is_persistent,
            sweep_memory, hc]

/-- C8 witness: evaluated on the concrete store with no backend. -/
theorem claim_C8_witness :
    st0.count_sessions = (st0.inner.length : Int) ∧
    (sweep_memory st0 100).count_sessions =
      ((sweep_memory st0 100).inner.length : Int) :=
  ⟨((claim_C8 st0).2.2 rfl).1, ((claim_C8 st0).2.2 rfl).2 100⟩

/-- C9: `get_remove` is one atomic step of the interleaving model (the
source holds the map's per-entry exclusive guard for its whole body), and
that single step is equivalent to `get` followed by `remove` against the
same state: whatever finite sequence of concurrent operations ran before
it, the value it observes and the state it leaves both refer to the state
at that one step, so no interleaved `set` is observable between the read
and the deletion. -/
theorem claim_C9 (s0 : SessionStore) (pre : List Action) (id key : String) :
    (runActions s0 pre).get_remove id key =
      ((runActions s0 pre).get id key, (runActions s0 pre).remove id key) := by
  cases h : lookupKey (runActions s0 pre).inner id with
  | none =>
    simp [SessionStore.get_remove, SessionStore.get, SessionStore.remove, h]
  | some rec =>
    simp [SessionStore.get_remove, SessionStore.get, SessionStore.remove, h,
          SessionData.get_remove, SessionData.get, SessionData.remove]

/-- C10: `SessionStore::new` schedules the first in-memory sweep exactly one
hour and the first backend sweep exactly six hours after construction, as
constants independent of the configured sweep intervals, and neither lazy
sweep is due before those offsets elapse. -/
theorem claim_C10 (client : Option Backend) (config : SessionConfig)
    (now : Int) :
    (SessionStore.new client config now).timers.last_expiry_sweep =
      now + 3600 ∧
    (SessionStore.new client config now).timers.last_database_expiry_sweep =
      now + 6 * 3600 ∧
    (∀ config2, (SessionStore.new client config2 now).timers =
      (SessionStore.new client config now).timers) ∧
    (∀ t, t < now + 3600 →
      memory_sweep_due (SessionStore.new client config now) t = false) ∧
    (∀ t, t < now + 6 * 3600 →
      database_sweep_due (SessionStore.new client config now) t = false) := by
  refine ⟨rfl, rfl, fun _ => rfl, ?_, ?_⟩
  · intro t ht
    simp only [memory_sweep_due, SessionStore.new, decide_eq_false_iff_not]
    omega
  · intro t ht
    simp only [database_sweep_due, SessionStore.new, decide_eq_false_iff_not]
    omega

/-- C10 witness: evaluated at construction time 0, one second before each
scheduled first sweep. -/
theorem claim_C10_witness :
    (SessionStore.new none cfg0 0).timers.last_expiry_sweep = 0 + 3600 ∧
    memory_sweep_due (SessionStore.new none cfg0 0) 3599 = false ∧
    database_sweep_due (SessionStore.new none cfg0 0) 21599 = false :=
  ⟨(claim_C10 none cfg0 0).1,
    (claim_C10 none cfg0 0).2.2.2.1 3599 (by decide),
    (claim_C10 none cfg0 0).2.2.2.2 21599 (by decide)⟩

end AxumSessions
